import Mathlib

/-!
Shallow embedding of fairseq's distributed gradient-synchronization layer:
`fairseq/model_parallel/megatron_trainer.py` (model-parallel gradient-norm
aggregation) and `fairseq/models/distributed_fairseq_model.py` (DDP class
selection, communication-hook registration, attribute forwarding, and the
TPU fallback reduction path).
-/

namespace Fairseq

/-- One member of the model-parallel process group, as seen by
`MegatronTrainer.clip_grad_norm`: the member's local gradient values and the
locally computed total gradient norm (the `total_norm` argument of
`_aggregate_model_parallel_grad_norm`). -/
structure WorkerState where
  grads : List ℝ
  totalNorm : ℝ

/-- Embedding of `_aggregate_model_parallel_grad_norm`, run jointly by every
member of the model-parallel group: each member squares its local norm
(`total_norm = total_norm ** 2`), `distributed_utils.all_reduce` sums the
squared norms across the group so every member holds the total, and each
member then takes the square root (`total_norm = total_norm ** 0.5`).  The
gradient values of every member are left untouched. -/
noncomputable def aggregate_model_parallel_grad_norm
    (group : List WorkerState) : List WorkerState :=
  let s := (group.map (fun w => w.totalNorm ^ 2)).sum
  group.map (fun w => { w with totalNorm := Real.sqrt s })

/-- C1: the model-parallel gradient-norm aggregator returns
sqrt of the sum-all-reduce of the squared local norms, without mutating any
gradient; a group of size 1 gets its input norm back unchanged, and a group
of size N whose members all supply the same local norm n gets n * sqrt N. -/
theorem clip_grad_norm_model_parallel_aggregate (g : List ℝ) (n : ℝ) (N : ℕ)
    (hn : 0 ≤ n) :
    (∀ group : List WorkerState,
        aggregate_model_parallel_grad_norm group =
          group.map (fun w =>
            { grads := w.grads,
              totalNorm :=
                Real.sqrt ((group.map (fun v => v.totalNorm ^ 2)).sum) })) ∧
    aggregate_model_parallel_grad_norm [⟨g, n⟩] = [⟨g, n⟩] ∧
    aggregate_model_parallel_grad_norm (List.replicate N ⟨g, n⟩) =
      List.replicate N ⟨g, n * Real.sqrt ((N : ℕ) : ℝ)⟩ := by
  refine ⟨fun group => rfl, ?_, ?_⟩
  · simp [aggregate_model_parallel_grad_norm, Real.sqrt_sq hn]
  · have h1 : Real.sqrt (((N : ℕ) : ℝ) * n ^ 2) = n * Real.sqrt ((N : ℕ) : ℝ) := by
      rw [Real.sqrt_mul (by positivity) (n ^ 2), Real.sqrt_sq hn, mul_comm]
    simp only [aggregate_model_parallel_grad_norm, List.map_replicate,
      List.sum_replicate, nsmul_eq_mul]
    rw [h1]

/-- Witness for C1 at the concrete input n = 2, N = 4, grads [1]. -/
theorem clip_grad_norm_model_parallel_aggregate_witness :
    (0 : ℝ) ≤ 2 ∧
    (aggregate_model_parallel_grad_norm [⟨[1], 2⟩] = [⟨[1], 2⟩] ∧
      aggregate_model_parallel_grad_norm (List.replicate 4 ⟨[1], 2⟩) =
        List.replicate 4 ⟨[1], 2 * Real.sqrt ((4 : ℕ) : ℝ)⟩) :=
  ⟨by norm_num,
    (clip_grad_norm_model_parallel_aggregate [1] 2 4 (by norm_num)).2.1,
    (clip_grad_norm_model_parallel_aggregate [1] 2 4 (by norm_num)).2.2⟩

/-- The fields of the fairseq `args` namespace that
`DistributedFairseqModel` reads or writes.  Momentum values are modelled as
exact rationals; `slowmo_momentum = none` models Python `None`. -/
structure Args where
  tpu : Bool
  distributed_wrapper : String
  ddp_backend : String
  device_id : ℕ
  broadcast_buffers : Bool
  bucket_cap_mb : ℕ
  find_unused_parameters : Bool
  distributed_world_size : ℕ
  slowmo_momentum : Option ℚ
  slowmo_algorithm : String
  localsgd_frequency : ℕ
  nprocs_per_node : ℕ
deriving DecidableEq

/-- The four DDP implementation classes the selector can pick:
`TPUDistributedDataParallel`, `nn.parallel.DistributedDataParallel` (c10d),
`LegacyDistributedDataParallel`, and `gossip.GossipDataParallel`. -/
inductive DDPClass where
  | tpuDDP
  | c10dDDP
  | legacyDDP
  | gossipDDP
deriving DecidableEq

/-- The world-size-indexed default ladder for `args.slowmo_momentum`, as
written in the SlowMo branch of `DistributedFairseqModel`. -/
def slowmo_momentum_default (world_size : ℕ) : ℚ :=
  if world_size ≤ 16 then 0.0
  else if world_size ≤ 32 then 0.2
  else if world_size ≤ 64 then 0.5
  else 0.6

/-- The `if args.slowmo_momentum is None:` block of the SlowMo branch: when
momentum is unset, write the world-size default back into `args`; otherwise
leave `args` alone. -/
def resolve_slowmo_momentum (a : Args) : Args :=
  match a.slowmo_momentum with
  | none => { a with
      slowmo_momentum := some (slowmo_momentum_default a.distributed_world_size) }
  | some _ => a

/-- Errors raised by `DistributedFairseqModel` during construction:
`ImportError` for the missing gossip library (the spec's
MissingDependencyError), `ValueError` for unrecognized settings (the spec's
ConfigurationError), and Python `NameError` for an unbound variable. -/
inductive BuildError where
  | missingDependency (msg : String)
  | configurationError (msg : String)
  | nameError (nm : String)
deriving DecidableEq

/-- The exact `ImportError` message of the SlowMo branch. -/
def gossipInstallMsg : String :=
  "Cannot find gossip library. Please install from: github.com/facebookresearch/stochastic_gradient_push"

/-- Embedding of the branch chain of `DistributedFairseqModel` that picks
the DDP class: `args.tpu` first, then DDP+c10d, then DDP+no_c10d, then
SlowMo (which checks `_GOSSIP_DISABLED` and then resolves the default
momentum), and otherwise `ValueError`.  The returned `Args` is the state of
`args` after the branch has run. -/
def selectDDPClass (gossipAvailable : Bool) (a : Args) :
    Except BuildError (DDPClass × Args) :=
  if a.tpu then Except.ok (DDPClass.tpuDDP, a)
  else if a.distributed_wrapper = "DDP" ∧ a.ddp_backend = "c10d" then
    Except.ok (DDPClass.c10dDDP, a)
  else if a.distributed_wrapper = "DDP" ∧ a.ddp_backend = "no_c10d" then
    Except.ok (DDPClass.legacyDDP, a)
  else if a.distributed_wrapper = "SlowMo" then
    if gossipAvailable = false then
      Except.error (BuildError.missingDependency gossipInstallMsg)
    else
      Except.ok (DDPClass.gossipDDP, resolve_slowmo_momentum a)
  else
    Except.error (BuildError.configurationError
      ("Unknown --ddp-backend: " ++ a.ddp_backend))

/-- The five communication hook variants selectable through
`COMM_HOOK_TYPE`. -/
inductive HookKind where
  | fp16
  | powerSGD
  | fp16PowerSGD
  | batchedPowerSGD
  | fp16BatchedPowerSGD
deriving DecidableEq

/-- The local names bound in the body of `DistributedFairseqModel` at the
point where the communication hook block runs.  The name `ddp` used as the
receiver of the `FP16_COMPRESS` branch is not among them. -/
def localScopeNames : List String :=
  ["args", "model", "process_group", "ddp_class", "init_kwargs",
   "ddp_model", "comm_hook_type", "state"]

/-- The receiver variable name and hook picked by each recognized value of
`COMM_HOOK_TYPE`, exactly as each branch of the source is written: the
`FP16_COMPRESS` branch calls `ddp.register_comm_hook`, every other branch
calls `ddp_model.register_comm_hook`. -/
def hookTarget (s : String) : Option (String × HookKind) :=
  if s = "FP16_COMPRESS" then some ("ddp", HookKind.fp16)
  else if s = "POWER_SGD" then some ("ddp_model", HookKind.powerSGD)
  else if s = "FP16_POWER_SGD" then some ("ddp_model", HookKind.fp16PowerSGD)
  else if s = "BATCHED_POWER_SGD" then some ("ddp_model", HookKind.batchedPowerSGD)
  else if s = "FP16_BATCHED_POWER_SGD" then
    some ("ddp_model", HookKind.fp16BatchedPowerSGD)
  else none

/-- Outcome of the hook-registration block: a recognized value evaluates its
branch, which first resolves the branch's receiver variable in the enclosing
local scope (an unbound name raises `NameError` before anything is
registered) and then registers exactly one hook on that receiver; an
unrecognized present value raises `ValueError`; an absent value registers
nothing and raises nothing. -/
def registerHook (commHookType : Option String) :
    Except BuildError (Option (String × HookKind)) :=
  match commHookType with
  | none => Except.ok none
  | some s =>
    match hookTarget s with
    | some (recv, k) =>
        if recv ∈ localScopeNames then Except.ok (some (recv, k))
        else Except.error (BuildError.nameError recv)
    | none =>
        Except.error (BuildError.configurationError
          "Unknown value of the environment variable COMM_HOOK_TYPE.")

/-- Everything `DistributedFairseqModel` has produced when it returns: the
chosen DDP class, the final state of `args`, and the hook registered on its
receiver, if any. -/
structure BuildResult where
  ddpClass : DDPClass
  finalArgs : Args
  hook : Option (String × HookKind)
deriving DecidableEq

/-- The whole of `DistributedFairseqModel`: pick the DDP class (raising on
an invalid combination or a missing gossip library), construct the wrapper,
then run the hook-registration block. -/
def DistributedFairseqModelBuild (gossipAvailable : Bool)
    (commHookType : Option String) (a : Args) : Except BuildError BuildResult :=
  match selectDDPClass gossipAvailable a with
  | Except.error e => Except.error e
  | Except.ok (cls, a2) =>
    match registerHook commHookType with
    | Except.error e => Except.error e
    | Except.ok h => Except.ok { ddpClass := cls, finalArgs := a2, hook := h }

/-- A concrete configuration requesting the SlowMo strategy with momentum
unset, used by several concrete checks below. -/
def argsSlowMo8 : Args :=
  { tpu := false, distributed_wrapper := "SlowMo", ddp_backend := "c10d",
    device_id := 0, broadcast_buffers := true, bucket_cap_mb := 25,
    find_unused_parameters := false, distributed_world_size := 8,
    slowmo_momentum := none, slowmo_algorithm := "LocalSGD",
    localsgd_frequency := 3, nprocs_per_node := 1 }

/-- C2: with the gossip strategy selected and momentum unset, selection
assigns momentum as a piecewise step function of the world size:
at most 16 gives 0.0, 17..32 gives 0.2, 33..64 gives 0.5, above 64 gives
0.6, the boundaries 16, 32, 64 falling on the lower branch. -/
theorem slowmo_momentum_ladder (a : Args) (h : a.slowmo_momentum = none)
    (htpu : a.tpu = false) (hw : a.distributed_wrapper = "SlowMo") :
    (a.distributed_world_size ≤ 16 →
      selectDDPClass true a =
        Except.ok (DDPClass.gossipDDP, { a with slowmo_momentum := some 0.0 })) ∧
    (17 ≤ a.distributed_world_size → a.distributed_world_size ≤ 32 →
      selectDDPClass true a =
        Except.ok (DDPClass.gossipDDP, { a with slowmo_momentum := some 0.2 })) ∧
    (33 ≤ a.distributed_world_size → a.distributed_world_size ≤ 64 →
      selectDDPClass true a =
        Except.ok (DDPClass.gossipDDP, { a with slowmo_momentum := some 0.5 })) ∧
    (64 < a.distributed_world_size →
      selectDDPClass true a =
        Except.ok (DDPClass.gossipDDP, { a with slowmo_momentum := some 0.6 })) := by
  have hsel : selectDDPClass true a =
      Except.ok (DDPClass.gossipDDP,
        { a with slowmo_momentum := some (slowmo_momentum_default a.distributed_world_size) }) := by
    simp [selectDDPClass, htpu, hw, resolve_slowmo_momentum, h]
  refine ⟨?_, ?_, ?_, ?_⟩
  · intro h1
    rw [hsel]
    unfold slowmo_momentum_default
    rw [if_pos h1]
  · intro h1 h2
    rw [hsel]
    unfold slowmo_momentum_default
    rw [if_neg (by omega), if_pos h2]
  · intro h1 h2
    rw [hsel]
    unfold slowmo_momentum_default
    rw [if_neg (by omega), if_neg (by omega), if_pos h2]
  · intro h1
    rw [hsel]
    unfold slowmo_momentum_default
    rw [if_neg (by omega), if_neg (by omega), if_neg (by omega)]

/-- Witness for C2 at the world sizes named by the claim: 8, 24, 50, 100 and
the boundaries 16, 32, 64. -/
theorem slowmo_momentum_ladder_witness :
    selectDDPClass true argsSlowMo8 =
      Except.ok (DDPClass.gossipDDP, { argsSlowMo8 with slowmo_momentum := some 0.0 }) ∧
    selectDDPClass true { argsSlowMo8 with distributed_world_size := 24 } =
      Except.ok (DDPClass.gossipDDP,
        { argsSlowMo8 with distributed_world_size := 24, slowmo_momentum := some 0.2 }) ∧
    selectDDPClass true { argsSlowMo8 with distributed_world_size := 50 } =
      Except.ok (DDPClass.gossipDDP,
        { argsSlowMo8 with distributed_world_size := 50, slowmo_momentum := some 0.5 }) ∧
    selectDDPClass true { argsSlowMo8 with distributed_world_size := 100 } =
      Except.ok (DDPClass.gossipDDP,
        { argsSlowMo8 with distributed_world_size := 100, slowmo_momentum := some 0.6 }) ∧
    selectDDPClass true { argsSlowMo8 with distributed_world_size := 16 } =
      Except.ok (DDPClass.gossipDDP,
        { argsSlowMo8 with distributed_world_size := 16, slowmo_momentum := some 0.0 }) ∧
    selectDDPClass true { argsSlowMo8 with distributed_world_size := 32 } =
      Except.ok (DDPClass.gossipDDP,
        { argsSlowMo8 with distributed_world_size := 32, slowmo_momentum := some 0.2 }) ∧
    selectDDPClass true { argsSlowMo8 with distributed_world_size := 64 } =
      Except.ok (DDPClass.gossipDDP,
        { argsSlowMo8 with distributed_world_size := 64, slowmo_momentum := some 0.5 }) :=
  ⟨(slowmo_momentum_ladder argsSlowMo8 rfl rfl rfl).1 (by decide),
   (slowmo_momentum_ladder { argsSlowMo8 with distributed_world_size := 24 }
      rfl rfl rfl).2.1 (by decide) (by decide),
   (slowmo_momentum_ladder { argsSlowMo8 with distributed_world_size := 50 }
      rfl rfl rfl).2.2.1 (by decide) (by decide),
   (slowmo_momentum_ladder { argsSlowMo8 with distributed_world_size := 100 }
      rfl rfl rfl).2.2.2 (by decide),
   (slowmo_momentum_ladder { argsSlowMo8 with distributed_world_size := 16 }
      rfl rfl rfl).1 (by decide),
   (slowmo_momentum_ladder { argsSlowMo8 with distributed_world_size := 32 }
      rfl rfl rfl).2.1 (by decide) (by decide),
   (slowmo_momentum_ladder { argsSlowMo8 with distributed_world_size := 64 }
      rfl rfl rfl).2.2.1 (by decide) (by decide)⟩

/-- C5 counterexample: selection is not free of configuration mutation — on
the SlowMo branch with momentum unset, the configuration coming out of
selection carries `some 0.0` where the input carried `none`. -/
theorem select_mutates_momentum_counterexample :
    selectDDPClass true argsSlowMo8 =
      Except.ok (DDPClass.gossipDDP, { argsSlowMo8 with slowmo_momentum := some 0.0 }) ∧
    ({ argsSlowMo8 with slowmo_momentum := some 0.0 }).slowmo_momentum ≠
      argsSlowMo8.slowmo_momentum :=
  ⟨rfl, by simp [argsSlowMo8]⟩

/-- Helper: a successful selection returns the input configuration, except
that the SlowMo branch returns it with the momentum default resolved. -/
theorem selectDDPClass_ok_args (g : Bool) (a : Args) (cls : DDPClass) (a2 : Args)
    (hsel : selectDDPClass g a = Except.ok (cls, a2)) :
    a2 = a ∨ (a.distributed_wrapper = "SlowMo" ∧ a2 = resolve_slowmo_momentum a) := by
  unfold selectDDPClass at hsel
  split_ifs at hsel with h1 h2 h3 h4 h5 <;> simp only [Except.ok.injEq,
    Except.error.injEq, Prod.mk.injEq, reduceCtorEq] at hsel
  · exact Or.inl hsel.2.symm
  · exact Or.inl hsel.2.symm
  · exact Or.inl hsel.2.symm
  · exact Or.inr ⟨h4, hsel.2.symm⟩

/-- C5 (amended): selection has no effect on the configuration except on
the momentum field, which changes only when the SlowMo branch is taken with
momentum unset, in which case it receives the world-size default. -/
theorem select_frame (g : Bool) (a : Args) (cls : DDPClass) (a2 : Args)
    (hsel : selectDDPClass g a = Except.ok (cls, a2)) :
    a2.tpu = a.tpu ∧
    a2.distributed_wrapper = a.distributed_wrapper ∧
    a2.ddp_backend = a.ddp_backend ∧
    a2.device_id = a.device_id ∧
    a2.broadcast_buffers = a.broadcast_buffers ∧
    a2.bucket_cap_mb = a.bucket_cap_mb ∧
    a2.find_unused_parameters = a.find_unused_parameters ∧
    a2.distributed_world_size = a.distributed_world_size ∧
    a2.slowmo_algorithm = a.slowmo_algorithm ∧
    a2.localsgd_frequency = a.localsgd_frequency ∧
    a2.nprocs_per_node = a.nprocs_per_node ∧
    (a2.slowmo_momentum = a.slowmo_momentum ∨
      (a.slowmo_momentum = none ∧ a.distributed_wrapper = "SlowMo" ∧
        a2.slowmo_momentum =
          some (slowmo_momentum_default a.distributed_world_size))) := by
  rcases selectDDPClass_ok_args g a cls a2 hsel with rfl | ⟨hw, rfl⟩
  · exact ⟨rfl, rfl, rfl, rfl, rfl, rfl, rfl, rfl, rfl, rfl, rfl, Or.inl rfl⟩
  · rcases hmom : a.slowmo_momentum with _ | m <;>
      simp [resolve_slowmo_momentum, hmom, hw]

/-- Witness for C5 (amended) at a concrete successful selection. -/
theorem select_frame_witness :
    selectDDPClass true argsSlowMo8 =
      Except.ok (DDPClass.gossipDDP, { argsSlowMo8 with slowmo_momentum := some 0.0 }) ∧
    (({ argsSlowMo8 with slowmo_momentum := some 0.0 } : Args).tpu = argsSlowMo8.tpu ∧
      ({ argsSlowMo8 with slowmo_momentum := some 0.0 } : Args).distributed_wrapper =
        argsSlowMo8.distributed_wrapper ∧
      ({ argsSlowMo8 with slowmo_momentum := some 0.0 } : Args).ddp_backend =
        argsSlowMo8.ddp_backend ∧
      ({ argsSlowMo8 with slowmo_momentum := some 0.0 } : Args).device_id =
        argsSlowMo8.device_id ∧
      ({ argsSlowMo8 with slowmo_momentum := some 0.0 } : Args).broadcast_buffers =
        argsSlowMo8.broadcast_buffers ∧
      ({ argsSlowMo8 with slowmo_momentum := some 0.0 } : Args).bucket_cap_mb =
        argsSlowMo8.bucket_cap_mb ∧
      ({ argsSlowMo8 with slowmo_momentum := some 0.0 } : Args).find_unused_parameters =
        argsSlowMo8.find_unused_parameters ∧
      ({ argsSlowMo8 with slowmo_momentum := some 0.0 } : Args).distributed_world_size =
        argsSlowMo8.distributed_world_size ∧
      ({ argsSlowMo8 with slowmo_momentum := some 0.0 } : Args).slowmo_algorithm =
        argsSlowMo8.slowmo_algorithm ∧
      ({ argsSlowMo8 with slowmo_momentum := some 0.0 } : Args).localsgd_frequency =
        argsSlowMo8.localsgd_frequency ∧
      ({ argsSlowMo8 with slowmo_momentum := some 0.0 } : Args).nprocs_per_node =
        argsSlowMo8.nprocs_per_node ∧
      (({ argsSlowMo8 with slowmo_momentum := some 0.0 } : Args).slowmo_momentum =
          argsSlowMo8.slowmo_momentum ∨
        (argsSlowMo8.slowmo_momentum = none ∧
          argsSlowMo8.distributed_wrapper = "SlowMo" ∧
          ({ argsSlowMo8 with slowmo_momentum := some 0.0 } : Args).slowmo_momentum =
            some (slowmo_momentum_default argsSlowMo8.distributed_world_size)))) :=
  ⟨rfl, select_frame true argsSlowMo8 DDPClass.gossipDDP
    { argsSlowMo8 with slowmo_momentum := some 0.0 } rfl⟩

/-- C7: each supported combination of wrapper and backend yields exactly the
matching DDP class — TPU flag gives the accelerator-native class, DDP+c10d
the dense class, DDP+no_c10d the legacy bucketed class, SlowMo (with gossip
available) the gossip class — and every combination outside the supported
set raises `ValueError` at construction time. -/
theorem select_matches_requested_backend (g : Bool) (a : Args) :
    (a.tpu = true → selectDDPClass g a = Except.ok (DDPClass.tpuDDP, a)) ∧
    (a.tpu = false → a.distributed_wrapper = "DDP" → a.ddp_backend = "c10d" →
      selectDDPClass g a = Except.ok (DDPClass.c10dDDP, a)) ∧
    (a.tpu = false → a.distributed_wrapper = "DDP" → a.ddp_backend = "no_c10d" →
      selectDDPClass g a = Except.ok (DDPClass.legacyDDP, a)) ∧
    (a.tpu = false → a.distributed_wrapper = "SlowMo" → g = true →
      selectDDPClass g a = Except.ok (DDPClass.gossipDDP, resolve_slowmo_momentum a)) ∧
    (a.tpu = false → a.distributed_wrapper ≠ "DDP" → a.distributed_wrapper ≠ "SlowMo" →
      selectDDPClass g a = Except.error (BuildError.configurationError
        ("Unknown --ddp-backend: " ++ a.ddp_backend))) ∧
    (a.tpu = false → a.distributed_wrapper = "DDP" → a.ddp_backend ≠ "c10d" →
      a.ddp_backend ≠ "no_c10d" →
      selectDDPClass g a = Except.error (BuildError.configurationError
        ("Unknown --ddp-backend: " ++ a.ddp_backend))) := by
  refine ⟨?_, ?_, ?_, ?_, ?_, ?_⟩
  · intro h1
    simp [selectDDPClass, h1]
  · intro h1 h2 h3
    simp [selectDDPClass, h1, h2, h3]
  · intro h1 h2 h3
    simp [selectDDPClass, h1, h2, h3]
  · intro h1 h2 h3
    subst h3
    simp [selectDDPClass, h1, h2]
  · intro h1 h2 h3
    simp [selectDDPClass, h1, h2, h3]
  · intro h1 h2 h3 h4
    simp [selectDDPClass, h1, h2, h3, h4]

/-- Witness for C7: the four supported combinations and two unsupported
ones, checked at concrete configurations. -/
theorem select_matches_requested_backend_witness :
    selectDDPClass true { argsSlowMo8 with tpu := true } =
      Except.ok (DDPClass.tpuDDP, { argsSlowMo8 with tpu := true }) ∧
    selectDDPClass true { argsSlowMo8 with distributed_wrapper := "DDP" } =
      Except.ok (DDPClass.c10dDDP, { argsSlowMo8 with distributed_wrapper := "DDP" }) ∧
    selectDDPClass true
        { argsSlowMo8 with distributed_wrapper := "DDP", ddp_backend := "no_c10d" } =
      Except.ok (DDPClass.legacyDDP,
        { argsSlowMo8 with distributed_wrapper := "DDP", ddp_backend := "no_c10d" }) ∧
    selectDDPClass true argsSlowMo8 =
      Except.ok (DDPClass.gossipDDP, resolve_slowmo_momentum argsSlowMo8) ∧
    selectDDPClass true { argsSlowMo8 with distributed_wrapper := "Hogwild" } =
      Except.error (BuildError.configurationError ("Unknown --ddp-backend: " ++ "c10d")) ∧
    selectDDPClass true
        { argsSlowMo8 with distributed_wrapper := "DDP", ddp_backend := "xla" } =
      Except.error (BuildError.configurationError ("Unknown --ddp-backend: " ++ "xla")) :=
  ⟨(select_matches_requested_backend true { argsSlowMo8 with tpu := true }).1 rfl,
   (select_matches_requested_backend true
      { argsSlowMo8 with distributed_wrapper := "DDP" }).2.1 rfl rfl rfl,
   (select_matches_requested_backend true
      { argsSlowMo8 with distributed_wrapper := "DDP", ddp_backend := "no_c10d" }).2.2.1
      rfl rfl rfl,
   (select_matches_requested_backend true argsSlowMo8).2.2.2.1 rfl rfl rfl,
   (select_matches_requested_backend true
      { argsSlowMo8 with distributed_wrapper := "Hogwild" }).2.2.2.2.1 rfl
      (by decide) (by decide),
   (select_matches_requested_backend true
      { argsSlowMo8 with distributed_wrapper := "DDP", ddp_backend := "xla" }).2.2.2.2.2
      rfl rfl (by decide) (by decide)⟩

/-- C8: requesting the SlowMo strategy while the gossip library is absent
raises `ImportError` with the message naming what to install, already at
selection time: the whole construction pipeline returns that error and
produces no wrapper and registers no hook. -/
theorem slowmo_missing_gossip (a : Args) (cht : Option String)
    (htpu : a.tpu = false) (hw : a.distributed_wrapper = "SlowMo") :
    selectDDPClass false a =
      Except.error (BuildError.missingDependency gossipInstallMsg) ∧
    DistributedFairseqModelBuild false cht a =
      Except.error (BuildError.missingDependency gossipInstallMsg) ∧
    gossipInstallMsg =
      "Cannot find gossip library. Please install from: github.com/facebookresearch/stochastic_gradient_push" := by
  have h1 : selectDDPClass false a =
      Except.error (BuildError.missingDependency gossipInstallMsg) := by
    simp [selectDDPClass, htpu, hw]
  exact ⟨h1, by simp [DistributedFairseqModelBuild, h1], rfl⟩

/-- Witness for C8 at a concrete SlowMo configuration with a hook request
pending: the pipeline stops with the dependency error. -/
theorem slowmo_missing_gossip_witness :
    (argsSlowMo8.tpu = false ∧ argsSlowMo8.distributed_wrapper = "SlowMo") ∧
    DistributedFairseqModelBuild false (some "POWER_SGD") argsSlowMo8 =
      Except.error (BuildError.missingDependency gossipInstallMsg) :=
  ⟨⟨rfl, rfl⟩, (slowmo_missing_gossip argsSlowMo8 (some "POWER_SGD") rfl rfl).2.1⟩

/-- C3: evaluation of the hook-registration block at every discriminator
class.  The four PowerSGD-family values each register exactly one hook on
`ddp_model`, the wrapper's own channel; an absent discriminator registers
nothing and raises nothing; an unrecognized value raises `ValueError` and
registers nothing.  But `FP16_COMPRESS` — contrary to the claim — evaluates
the unbound name `ddp` and so raises `NameError`, registering no hook. -/
theorem comm_hook_registration_outcomes :
    registerHook (some "FP16_COMPRESS") = Except.error (BuildError.nameError "ddp") ∧
    registerHook (some "POWER_SGD") =
      Except.ok (some ("ddp_model", HookKind.powerSGD)) ∧
    registerHook (some "FP16_POWER_SGD") =
      Except.ok (some ("ddp_model", HookKind.fp16PowerSGD)) ∧
    registerHook (some "BATCHED_POWER_SGD") =
      Except.ok (some ("ddp_model", HookKind.batchedPowerSGD)) ∧
    registerHook (some "FP16_BATCHED_POWER_SGD") =
      Except.ok (some ("ddp_model", HookKind.fp16BatchedPowerSGD)) ∧
    registerHook none = Except.ok none ∧
    registerHook (some "ALLREDUCE") = Except.error (BuildError.configurationError
      "Unknown value of the environment variable COMM_HOOK_TYPE.") :=
  ⟨rfl, rfl, rfl, rfl, rfl, rfl, rfl⟩

/-- A Python object seen as its attribute map; `attrs nm = none` means the
object has no attribute `nm`.  Attribute values are drawn from ℕ. -/
structure PyObject where
  attrs : String → Option ℕ

/-- Direct attribute access on the wrapped model: the value when present,
otherwise `AttributeError` carrying the attribute name. -/
def moduleGetattr (m : PyObject) (nm : String) : Except String ℕ :=
  match m.attrs nm with
  | some v => Except.ok v
  | none => Except.error nm

/-- Embedding of attribute lookup on `_DistributedFairseqModel` under
Python's attribute protocol.  `own` is the wrapper's own namespace (the
names normal lookup resolves on the wrapper itself); when it fails,
`__getattr__` runs: `hasattr`/`getattr` on the wrapped model first, and
otherwise `super().__getattr__(name)` — the inherited lookup `superGetattr`
of the wrapped DDP base classes, which raises `AttributeError` for an
unknown name. -/
def wrapperGetattr (own : String → Option ℕ)
    (superGetattr : String → Except String ℕ)
    (m : PyObject) (nm : String) : Except String ℕ :=
  match own nm with
  | some v => Except.ok v
  | none =>
    match m.attrs nm with
    | some v => Except.ok v
    | none => superGetattr nm

/-- C4: attribute lookup on the wrapper follows the documented chain: a name
in the wrapper's own namespace resolves there whatever the model holds (the
model is never consulted); a name absent from the wrapper but present on the
model yields the model's value; a name absent from both — with the inherited
lookup reporting the standard `AttributeError` for it — produces exactly the
failure direct access on the model produces. -/
theorem wrapper_getattr_chain (own : String → Option ℕ)
    (superGetattr : String → Except String ℕ) (m : PyObject) (nm : String) :
    (∀ v, own nm = some v →
      ∀ m2 : PyObject, wrapperGetattr own superGetattr m2 nm = Except.ok v) ∧
    (own nm = none → ∀ v, m.attrs nm = some v →
      wrapperGetattr own superGetattr m nm = Except.ok v) ∧
    (own nm = none → m.attrs nm = none → superGetattr nm = Except.error nm →
      wrapperGetattr own superGetattr m nm = moduleGetattr m nm) := by
  refine ⟨?_, ?_, ?_⟩
  · intro v hv m2
    simp [wrapperGetattr, hv]
  · intro h0 v hv
    simp [wrapperGetattr, h0, hv]
  · intro h0 hm hs
    simp [wrapperGetattr, moduleGetattr, h0, hm, hs]

/-- A wrapper namespace and a wrapped model for the C4 witness: the wrapper
itself holds `forward`, the model holds `forward` (with a different value)
and `encoder`, and neither holds `missing`. -/
def ownW : String → Option ℕ := fun nm =>
  if nm = "forward" then some 10 else none

/-- The wrapped model for the C4 witness. -/
def modelW : PyObject :=
  ⟨fun nm => if nm = "forward" then some 99 else if nm = "encoder" then some 20 else none⟩

/-- The inherited DDP-base-class lookup for the C4 witness: it knows no
extra names, so it raises `AttributeError` for everything. -/
def superW : String → Except String ℕ := fun nm => Except.error nm

/-- Witness for C4: the three links of the chain at concrete names. -/
theorem wrapper_getattr_chain_witness :
    (ownW "forward" = some 10 ∧
      wrapperGetattr ownW superW modelW "forward" = Except.ok 10) ∧
    (ownW "encoder" = none ∧ modelW.attrs "encoder" = some 20 ∧
      wrapperGetattr ownW superW modelW "encoder" = Except.ok 20) ∧
    (ownW "missing" = none ∧ modelW.attrs "missing" = none ∧
      superW "missing" = Except.error "missing" ∧
      wrapperGetattr ownW superW modelW "missing" = moduleGetattr modelW "missing") :=
  ⟨⟨rfl, (wrapper_getattr_chain ownW superW modelW "forward").1 10 rfl modelW⟩,
   ⟨rfl, rfl, (wrapper_getattr_chain ownW superW modelW "encoder").2.1 rfl 20 rfl⟩,
   ⟨rfl, rfl, rfl,
     (wrapper_getattr_chain ownW superW modelW "missing").2.2 rfl rfl rfl⟩⟩

/-- A gradient tensor on the TPU path: its autograd flag and its (flattened)
element values. -/
structure Tensor where
  requires_grad : Bool
  vals : List ℚ
deriving DecidableEq

/-- A model parameter as `all_reduce_grads` sees it: whether it requires a
gradient, its (flattened) element count, and its gradient slot. -/
structure Param where
  requires_grad : Bool
  shape : ℕ
  grad : Option Tensor
deriving DecidableEq

/-- `torch.zeros_like(p)`: a fresh zero-filled tensor of `p`'s shape, not
requiring grad. -/
def zerosLike (p : Param) : Tensor :=
  ⟨false, List.replicate p.shape 0⟩

/-- The gradient of `p` that the loop body ends up appending: `p.grad`,
zero-filled first when absent (`if p.grad is None: p.grad =
torch.zeros_like(p)`). -/
def fillGrad (p : Param) : Tensor :=
  match p.grad with
  | none => zerosLike p
  | some t => t

/-- Result of the gradient-collection loop: the collected gradient list, or
the `RuntimeError` raised on a gradient that itself requires grad. -/
inductive CollectResult where
  | ok (grads : List Tensor)
  | err
deriving DecidableEq

/-- The parameter loop of `all_reduce_grads`: skip parameters not requiring
grad; zero-fill an absent gradient in place; raise `RuntimeError` when the
gradient itself requires grad (the raise cuts the loop, leaving later
parameters untouched); append the gradient.  Returns the parameter list as
the loop leaves it, together with the collected gradients or the error. -/
def collectGrads : List Param → List Param × CollectResult
  | [] => ([], CollectResult.ok [])
  | p :: rest =>
    if p.requires_grad = false then
      let r := collectGrads rest
      (p :: r.1, r.2)
    else
      let g := fillGrad p
      let p2 : Param := { p with grad := some g }
      if g.requires_grad = true then
        (p2 :: rest, CollectResult.err)
      else
        let r := collectGrads rest
        (p2 :: r.1,
          match r.2 with
          | CollectResult.ok gs => CollectResult.ok (g :: gs)
          | CollectResult.err => CollectResult.err)

/-- Elementwise sum of two lists of tensors (represented by their values). -/
def addTensorLists (xs ys : List (List ℚ)) : List (List ℚ) :=
  List.zipWith (fun u v => List.zipWith (fun x y => x + y) u v) xs ys

/-- Elementwise sum of every group member's tensor list. -/
def sumTensorLists : List (List (List ℚ)) → List (List ℚ)
  | [] => []
  | [c] => c
  | c :: cs => addTensorLists c (sumTensorLists cs)

/-- Scale every element of every tensor. -/
def scaleTensorLists (s : ℚ) (xs : List (List ℚ)) : List (List ℚ) :=
  xs.map (fun u => u.map (fun x => s * x))

/-- `xm.all_reduce('sum', gradients, scale, groups)`: one sum-collective
over the members' tensor lists, scaled by `scale`. -/
def xm_all_reduce (scale : ℚ) (contribs : List (List (List ℚ))) : List (List ℚ) :=
  scaleTensorLists scale (sumTensorLists contribs)

/-- The reduced tensors land back in the gradient slots of the parameters
that contributed them (the collective mutates the listed gradient tensors in
place, in collection order); parameters not requiring grad are passed
over. -/
def writeBackGrads : List Param → List (List ℚ) → List Param
  | [], _ => []
  | p :: rest, gs =>
    if p.requires_grad = false then p :: writeBackGrads rest gs
    else
      match gs with
      | [] => p :: writeBackGrads rest []
      | g :: gs2 => { p with grad := some ⟨false, g⟩ } :: writeBackGrads rest gs2

/-- What one call of `all_reduce_grads` leaves behind: the parameter list,
whether the collective was issued, and whether the call raised. -/
structure ReduceOutcome where
  params : List Param
  issuedCollective : Bool
  raised : Bool
deriving DecidableEq

/-- Embedding of `TPUDistributedDataParallel.all_reduce_grads`, run by one
worker of a group of `world_size` members whose peers contribute
`peerContribs`: collect the gradients (zero-filling absent ones, raising on
a gradient that itself requires grad), then issue exactly one
`xm.all_reduce` sum-collective scaled by `1 / world_size` over the
collected list.  When collection raises, the collective is never issued. -/
def all_reduce_grads (world_size : ℕ) (peerContribs : List (List (List ℚ)))
    (ps : List Param) : ReduceOutcome :=
  let r := collectGrads ps
  match r.2 with
  | CollectResult.err =>
    { params := r.1, issuedCollective := false, raised := true }
  | CollectResult.ok gs =>
    let reduced :=
      xm_all_reduce (1 / (world_size : ℚ)) ((gs.map Tensor.vals) :: peerContribs)
    { params := writeBackGrads r.1 reduced, issuedCollective := true, raised := false }

/-- The state of a parameter after the collection loop has passed it without
raising: untouched when it does not require grad, gradient slot filled
otherwise. -/
def fillParam (p : Param) : Param :=
  if p.requires_grad = false then p else { p with grad := some (fillGrad p) }

/-- The gradient list the loop collects when it does not raise: the (filled)
gradients of exactly the parameters requiring grad, in order. -/
def collectedOf (ps : List Param) : List Tensor :=
  (ps.filter (fun p => p.requires_grad)).map fillGrad

/-- Helper: when no collected gradient requires grad, the loop finishes
without raising, fills exactly the gradient slots of the parameters
requiring grad, and collects their gradients in order. -/
theorem collectGrads_ok (ps : List Param)
    (h : ∀ p ∈ ps, p.requires_grad = true → (fillGrad p).requires_grad = false) :
    collectGrads ps = (ps.map fillParam, CollectResult.ok (collectedOf ps)) := by
  induction ps with
  | nil => rfl
  | cons p rest ih =>
    have hrest : ∀ q ∈ rest, q.requires_grad = true → (fillGrad q).requires_grad = false :=
      fun q hq => h q (List.mem_cons_of_mem p hq)
    have hr := ih hrest
    cases hrg : p.requires_grad with
    | false =>
      simp [collectGrads, hrg, hr, fillParam, collectedOf, List.filter_cons_of_neg]
    | true =>
      have hf : (fillGrad p).requires_grad = false := h p (List.mem_cons_self p rest) hrg
      simp [collectGrads, hrg, hf, hr, fillParam, collectedOf, List.filter_cons_of_pos]

/-- Helper: adding a vector to `k` times itself gives `k + 1` times itself. -/
theorem addVec_self_mul (u : List ℚ) (k : ℚ) :
    List.zipWith (fun x y => x + y) u (u.map (fun x => k * x)) =
      u.map (fun x => (k + 1) * x) := by
  induction u with
  | nil => rfl
  | cons a u ih =>
    simp only [List.map_cons, List.zipWith_cons_cons, ih]
    congr 1
    ring

/-- Helper: `addVec_self_mul` lifted to tensor lists. -/
theorem addTensorLists_self_mul (c : List (List ℚ)) (k : ℚ) :
    addTensorLists c (c.map (fun u => u.map (fun x => k * x))) =
      c.map (fun u => u.map (fun x => (k + 1) * x)) := by
  induction c with
  | nil => rfl
  | cons u c ih =>
    simp only [addTensorLists, List.map_cons, List.zipWith_cons_cons] at *
    rw [addVec_self_mul, ih]

/-- Helper: summing `W + 1` identical contributions multiplies every element
by `W + 1`. -/
theorem sumTensorLists_replicate (c : List (List ℚ)) (W : ℕ) :
    sumTensorLists (List.replicate (W + 1) c) =
      c.map (fun u => u.map (fun x => (((W + 1 : ℕ) : ℚ)) * x)) := by
  induction W with
  | zero =>
    simp [sumTensorLists, List.replicate]
  | succ W ih =>
    rw [List.replicate_succ]
    have e : sumTensorLists (c :: List.replicate (W + 1) c) =
        addTensorLists c (sumTensorLists (List.replicate (W + 1) c)) := by
      rw [List.replicate_succ]
      rfl
    rw [e, ih, addTensorLists_self_mul]
    have hsc : (((W + 1 : ℕ) : ℚ)) + 1 = ((W + 1 + 1 : ℕ) : ℚ) := by push_cast; ring
    rw [hsc]

/-- Helper: the scaled sum-collective over `W` identical contributions is
the identity — sum then divide by the world size. -/
theorem xm_all_reduce_identical (c : List (List ℚ)) (W : ℕ) (hW : 0 < W) :
    xm_all_reduce (1 / (W : ℚ)) (List.replicate W c) = c := by
  obtain ⟨V, rfl⟩ : ∃ V, W = V + 1 := ⟨W - 1, by omega⟩
  rw [xm_all_reduce, sumTensorLists_replicate]
  unfold scaleTensorLists
  rw [List.map_map]
  have hne : (((V + 1 : ℕ) : ℚ)) ≠ 0 := by positivity
  have hx : ∀ x : ℚ, (1 / ((V + 1 : ℕ) : ℚ)) * ((((V + 1 : ℕ) : ℚ)) * x) = x := by
    intro x
    field_simp
  simp only [Function.comp, List.map_map, Function.comp_def, hx]
  simp

/-- Helper: writing each (filled) parameter's own gradient values back into
its gradient slot changes nothing. -/
theorem writeBack_fill (ps : List Param)
    (h : ∀ p ∈ ps, p.requires_grad = true → (fillGrad p).requires_grad = false) :
    writeBackGrads (ps.map fillParam) ((collectedOf ps).map Tensor.vals) =
      ps.map fillParam := by
  induction ps with
  | nil => rfl
  | cons p rest ih =>
    have hrest : ∀ q ∈ rest, q.requires_grad = true → (fillGrad q).requires_grad = false :=
      fun q hq => h q (List.mem_cons_of_mem p hq)
    have hhead := h p (List.mem_cons_self p rest)
    have ihr := ih hrest
    obtain ⟨prg, psh, pgr⟩ := p
    cases prg with
    | false =>
      simp [collectedOf, List.filter_cons, fillParam, writeBackGrads] at ihr ⊢
      exact ihr
    | true =>
      have hf : (fillGrad ⟨true, psh, pgr⟩).requires_grad = false := hhead rfl
      cases pgr with
      | none =>
        simp [collectedOf, List.filter_cons, fillParam, writeBackGrads, fillGrad,
          zerosLike] at ihr ⊢
        exact ihr
      | some t =>
        obtain ⟨trg, tvs⟩ := t
        simp [fillGrad] at hf
        subst hf
        simp [collectedOf, List.filter_cons, fillParam, writeBackGrads, fillGrad] at ihr ⊢
        exact ihr

/-- C6: on the accelerator-native path, `all_reduce_grads` zero-fills every
absent gradient of a gradient-requiring parameter and then issues one
sum-collective scaled by `1 / world_size`; when all `W` group members
contribute the same gradient list, every reduced gradient equals the local
contribution. -/
theorem all_reduce_grads_identical_workers (ps : List Param) (W : ℕ) (hW : 0 < W)
    (hleaf : ∀ p ∈ ps, p.requires_grad = true → (fillGrad p).requires_grad = false) :
    all_reduce_grads W (List.replicate (W - 1) ((collectedOf ps).map Tensor.vals)) ps =
      { params := ps.map fillParam, issuedCollective := true, raised := false } ∧
    (∀ p ∈ ps, p.requires_grad = true → p.grad = none →
      fillParam p = { p with grad := some ⟨false, List.replicate p.shape 0⟩ }) := by
  constructor
  · have hc := collectGrads_ok ps hleaf
    have hstep : all_reduce_grads W
        (List.replicate (W - 1) ((collectedOf ps).map Tensor.vals)) ps =
        { params := writeBackGrads (ps.map fillParam)
            (xm_all_reduce (1 / (W : ℚ)) (((collectedOf ps).map Tensor.vals) ::
              List.replicate (W - 1) ((collectedOf ps).map Tensor.vals))),
          issuedCollective := true, raised := false } := by
      unfold all_reduce_grads
      rw [hc]
    rw [hstep]
    have hrep : ((collectedOf ps).map Tensor.vals) ::
        List.replicate (W - 1) ((collectedOf ps).map Tensor.vals) =
        List.replicate W ((collectedOf ps).map Tensor.vals) := by
      conv_rhs => rw [show W = (W - 1) + 1 by omega]
      rw [List.replicate_succ]
    rw [hrep, xm_all_reduce_identical _ W hW, writeBack_fill ps hleaf]
  · intro p hp h1 h2
    simp [fillParam, fillGrad, h1, h2, zerosLike]

/-- Parameters of a worker with one absent gradient, one parameter not
requiring grad, and one already-computed leaf gradient, for the C6
witness. -/
def psW6 : List Param :=
  [⟨true, 2, none⟩, ⟨false, 1, none⟩, ⟨true, 1, some ⟨false, [5]⟩⟩]

/-- Witness for C6 in a group of 3 identical workers. -/
theorem all_reduce_grads_identical_workers_witness :
    (0 < 3 ∧
      ∀ p ∈ psW6, p.requires_grad = true → (fillGrad p).requires_grad = false) ∧
    (all_reduce_grads 3 (List.replicate (3 - 1) ((collectedOf psW6).map Tensor.vals)) psW6 =
        { params := psW6.map fillParam, issuedCollective := true, raised := false } ∧
      (∀ p ∈ psW6, p.requires_grad = true → p.grad = none →
        fillParam p = { p with grad := some ⟨false, List.replicate p.shape 0⟩ })) :=
  ⟨⟨by decide, by decide⟩,
    all_reduce_grads_identical_workers psW6 3 (by decide) (by decide)⟩

/-- Helper: the collection loop raises exactly when some parameter requiring
grad holds a gradient that itself requires grad (a zero-filled gradient
never does). -/
theorem collectGrads_err_iff (ps : List Param) :
    (collectGrads ps).2 = CollectResult.err ↔
      ∃ p ∈ ps, p.requires_grad = true ∧ ∃ t, p.grad = some t ∧ t.requires_grad = true := by
  induction ps with
  | nil => simp [collectGrads]
  | cons p rest ih =>
    obtain ⟨prg, psh, pgr⟩ := p
    cases prg with
    | false =>
      simp [collectGrads, ih]
    | true =>
      cases pgr with
      | none =>
        cases hr : (collectGrads rest).2 with
        | ok gs =>
          rw [hr] at ih
          simp only [reduceCtorEq, false_iff] at ih
          simp [collectGrads, fillGrad, zerosLike, hr, ih]
        | err =>
          rw [hr] at ih
          simp only [true_iff] at ih
          simp [collectGrads, fillGrad, zerosLike, hr, ih]
      | some t =>
        obtain ⟨trg, tvs⟩ := t
        cases trg with
        | false =>
          cases hr : (collectGrads rest).2 with
          | ok gs =>
            rw [hr] at ih
            simp only [reduceCtorEq, false_iff] at ih
            simp [collectGrads, fillGrad, hr, ih]
          | err =>
            rw [hr] at ih
            simp only [true_iff] at ih
            simp [collectGrads, fillGrad, hr, ih]
        | true =>
          simp [collectGrads, fillGrad]

/-- C9: `all_reduce_grads` raises the invariant violation if and only if
some gradient-requiring parameter's gradient itself requires further
differentiation, and whenever it raises, the collective is never issued. -/
theorem all_reduce_grads_raises_iff (W : ℕ) (peers : List (List (List ℚ)))
    (ps : List Param) :
    ((all_reduce_grads W peers ps).raised = true ↔
      ∃ p ∈ ps, p.requires_grad = true ∧ ∃ t, p.grad = some t ∧ t.requires_grad = true) ∧
    ((all_reduce_grads W peers ps).raised = true →
      (all_reduce_grads W peers ps).issuedCollective = false) := by
  have hiff := collectGrads_err_iff ps
  rcases hcp : collectGrads ps with ⟨ps1, r2⟩
  rw [hcp] at hiff
  cases r2 with
  | ok gs =>
    have h1 : all_reduce_grads W peers ps =
        { params := writeBackGrads ps1
            (xm_all_reduce (1 / (W : ℚ)) ((gs.map Tensor.vals) :: peers)),
          issuedCollective := true, raised := false } := by
      unfold all_reduce_grads
      rw [hcp]
    simp only [reduceCtorEq, false_iff] at hiff
    rw [h1]
    simp [hiff]
  | err =>
    have h1 : all_reduce_grads W peers ps =
        { params := ps1, issuedCollective := false, raised := true } := by
      unfold all_reduce_grads
      rw [hcp]
    simp only [true_iff] at hiff
    rw [h1]
    simp [hiff]

/-- Helper: when the first offending parameter `p` sits after a clean
prefix `ps1`, the loop fills the prefix, stops at `p`, and leaves `p` and
everything after it untouched. -/
theorem collectGrads_err_split (ps1 ps2 : List Param) (p : Param) (t : Tensor)
    (h1 : ∀ q ∈ ps1, q.requires_grad = true → (fillGrad q).requires_grad = false)
    (hp : p.requires_grad = true) (hg : p.grad = some t)
    (ht : t.requires_grad = true) :
    collectGrads (ps1 ++ p :: ps2) =
      (ps1.map fillParam ++ p :: ps2, CollectResult.err) := by
  induction ps1 with
  | nil =>
    have hfill : fillGrad p = t := by simp [fillGrad, hg]
    simp only [List.nil_append, List.map_nil]
    simp [collectGrads, hp, hfill, ht]
    rw [← hp, ← hg]
  | cons q ps1 ih =>
    have hq := h1 q (List.mem_cons_self q ps1)
    have hrest : ∀ r ∈ ps1, r.requires_grad = true → (fillGrad r).requires_grad = false :=
      fun r hr => h1 r (List.mem_cons_of_mem q hr)
    have ihr := ih hrest
    cases hrg : q.requires_grad with
    | false =>
      simp [collectGrads, hrg, ihr, fillParam]
    | true =>
      have hf := hq hrg
      simp [collectGrads, hrg, hf, ihr, fillParam]

/-- C10: when `all_reduce_grads` raises on parameter `p`, the zero-fills
already materialized for the gradient-requiring parameters before `p`
remain in place, `p` and the parameters after it are untouched, no
collective is issued, and parameters not requiring grad are never touched
(they are also excluded from the collected gradient list). -/
theorem all_reduce_grads_error_keeps_partial_fills (ps1 ps2 : List Param)
    (p : Param) (t : Tensor) (W : ℕ) (peers : List (List (List ℚ)))
    (h1 : ∀ q ∈ ps1, q.requires_grad = true → (fillGrad q).requires_grad = false)
    (hp : p.requires_grad = true) (hg : p.grad = some t)
    (ht : t.requires_grad = true) :
    all_reduce_grads W peers (ps1 ++ p :: ps2) =
      { params := ps1.map fillParam ++ p :: ps2,
        issuedCollective := false, raised := true } ∧
    (∀ q ∈ ps1, q.requires_grad = true → q.grad = none →
      fillParam q = { q with grad := some ⟨false, List.replicate q.shape 0⟩ }) ∧
    (∀ q : Param, q.requires_grad = false → fillParam q = q) := by
  refine ⟨?_, ?_, ?_⟩
  · have hc := collectGrads_err_split ps1 ps2 p t h1 hp hg ht
    unfold all_reduce_grads
    rw [hc]
  · intro q hq hq1 hq2
    simp [fillParam, fillGrad, hq1, hq2, zerosLike]
  · intro q hq
    simp [fillParam, hq]

/-- The clean prefix for the C10 witness: one parameter not requiring grad
and one gradient-requiring parameter with no gradient yet. -/
def ps1W : List Param := [⟨false, 2, none⟩, ⟨true, 1, none⟩]

/-- The offending gradient tensor for the C10 witness: it requires grad. -/
def tW : Tensor := ⟨true, [3]⟩

/-- The offending parameter for the C10 witness. -/
def pW : Param := ⟨true, 1, some tW⟩

/-- The untouched suffix for the C10 witness. -/
def ps2W : List Param := [⟨true, 2, none⟩]

/-- Witness for C10 at a concrete failing parameter list. -/
theorem all_reduce_grads_error_keeps_partial_fills_witness :
    ((∀ q ∈ ps1W, q.requires_grad = true → (fillGrad q).requires_grad = false) ∧
      pW.requires_grad = true ∧ pW.grad = some tW ∧ tW.requires_grad = true) ∧
    (all_reduce_grads 2 [] (ps1W ++ pW :: ps2W) =
        { params := ps1W.map fillParam ++ pW :: ps2W,
          issuedCollective := false, raised := true } ∧
      (∀ q ∈ ps1W, q.requires_grad = true → q.grad = none →
        fillParam q = { q with grad := some ⟨false, List.replicate q.shape 0⟩ }) ∧
      (∀ q : Param, q.requires_grad = false → fillParam q = q)) :=
  ⟨⟨by decide, rfl, rfl, rfl⟩,
    all_reduce_grads_error_keeps_partial_fills ps1W ps2W pW tW 2 [] (by decide) rfl rfl rfl⟩

end Fairseq
